import Mathlib

/-!
Shallow embedding of the BLESecure pairing/bonding orchestration layer for the
arduino-pico core (`BLESecure.h` / `BLESecure.cpp`).

The embedding models the `BLESecureClass` instance state as an explicit record,
models a `BLEDevice*` argument as `Option Nat` (`none` is a NULL pointer,
`some h` a device whose `getHandle()` returns `h`), and models every call into
the SM/GAP/device-DB collaborator, as well as every application-callback
invocation, as an element of an emitted trace (`SMCall`).  Functions of the
class become Lean functions from the state (plus a collaborator world, where
the function queries the LE device DB) to the new state, the emitted trace in
order, and the C++ return value.  Serial prints, `le_device_db_dump()` and the
purely diagnostic re-reads of `le_device_db_count()` have no effect on state,
trace membership or results and are not modelled.  Callback registration is
modelled by a boolean flag per callback slot (registered or not); invoking a
registered callback emits a trace element carrying the arguments the
application would observe.
-/

/-- Connection-handle sentinel `HCI_CON_HANDLE_INVALID` from BTstack. -/
def HCI_CON_HANDLE_INVALID : Nat := 0xffff

/-- Authentication-requirement flag `SM_AUTHREQ_BONDING` (BTstack ble/sm.h). -/
def SM_AUTHREQ_BONDING : Nat := 0x01

/-- Authentication-requirement flag `SM_AUTHREQ_MITM_PROTECTION`. -/
def SM_AUTHREQ_MITM_PROTECTION : Nat := 0x04

/-- Authentication-requirement flag `SM_AUTHREQ_SECURE_CONNECTION`. -/
def SM_AUTHREQ_SECURE_CONNECTION : Nat := 0x08

/-- Address type `BD_ADDR_TYPE_LE_PUBLIC` (BTstack bluetooth.h). -/
def BD_ADDR_TYPE_LE_PUBLIC : Nat := 0

/-- Address type `BD_ADDR_TYPE_LE_RANDOM`. -/
def BD_ADDR_TYPE_LE_RANDOM : Nat := 1

/-- Empty-slot sentinel; BLESecure.cpp defines the fallback value 0xff. -/
def BD_ADDR_TYPE_UNKNOWN : Nat := 0xff

/-- Size of the LE device DB, `NVM_NUM_DEVICE_DB_ENTRIES` (fallback 16). -/
def NVM_NUM_DEVICE_DB_ENTRIES : Nat := 16

/-- HCI status code `ERROR_CODE_SUCCESS`. -/
def ERROR_CODE_SUCCESS : Nat := 0

/-- Security levels, the `BLESecurityLevel` enum of BLESecure.h. -/
inductive BLESecurityLevel where
  | SECURITY_LOW
  | SECURITY_MEDIUM
  | SECURITY_HIGH
  | SECURITY_HIGH_SC
deriving DecidableEq, Repr

export BLESecurityLevel (SECURITY_LOW SECURITY_MEDIUM SECURITY_HIGH SECURITY_HIGH_SC)

/-- Pairing status, the `BLEPairingStatus` enum of BLESecure.h. -/
inductive BLEPairingStatus where
  | PAIRING_IDLE
  | PAIRING_STARTED
  | PAIRING_COMPLETE
  | PAIRING_FAILED
deriving DecidableEq, Repr

export BLEPairingStatus (PAIRING_IDLE PAIRING_STARTED PAIRING_COMPLETE PAIRING_FAILED)

/-- One observable action of the orchestration layer: a call into an SM/GAP/DB
primitive of the collaborator, or an invocation of a registered application
callback.  Trace elements appear in program order. -/
inductive SMCall where
  /-- sm_set_authentication_requirements(mask) -/
  | smSetAuthenticationRequirements (mask : Nat)
  /-- sm_request_pairing(handle) -/
  | smRequestPairing (handle : Nat)
  /-- sm_passkey_input(handle, passkey) -/
  | smPasskeyInput (handle : Nat) (passkey : Nat)
  /-- sm_numeric_comparison_confirm(handle) -/
  | smNumericComparisonConfirm (handle : Nat)
  /-- sm_just_works_confirm(handle) -/
  | smJustWorksConfirm (handle : Nat)
  /-- le_device_db_info(slot, ...) — a read of one physical DB slot -/
  | leDeviceDbInfo (slot : Nat)
  /-- gap_delete_bonding(addrType, addr) -/
  | gapDeleteBonding (addrType : Nat) (addr : Nat)
  /-- gap_disconnect(handle) -/
  | gapDisconnect (handle : Nat)
  /-- invocation of the registered pairing-status callback -/
  | pairingStatusCb (status : BLEPairingStatus) (handle : Nat)
  /-- invocation of the registered passkey-display callback -/
  | passkeyDisplayCb (passkey : Nat)
  /-- invocation of the registered passkey-entry callback -/
  | passkeyEntryCb
  /-- invocation of the registered numeric-comparison callback -/
  | numericComparisonCb (passkey : Nat) (handle : Nat)
  /-- invocation of the user disconnected callback; carries the pairing status
  the application would observe via getPairingStatus() inside the handler -/
  | userDisconnectedCb (observedStatus : BLEPairingStatus)
deriving DecidableEq, Repr

/-- Mutable state of the `BLESecureClass` singleton that the modelled
operations read or write.  Configuration fields the modelled operations never
touch (`_ioCapability`, `_fixedPasskey`, `_useFixedPasskey`,
`_requestPairingOnConnect`, the connected-callback slot) are omitted.
Each `...CallbackSet` boolean records whether the corresponding function
pointer is non-null. -/
structure BLESecureState where
  pairingStatus : BLEPairingStatus
  securityLevel : BLESecurityLevel
  bondingEnabled : Bool
  currentDeviceHandle : Nat
  passkeyDisplayCallbackSet : Bool
  passkeyEntryCallbackSet : Bool
  pairingStatusCallbackSet : Bool
  numericComparisonCallbackSet : Bool
  userDisconnectedCallbackSet : Bool
deriving DecidableEq, Repr

/-- The LE device DB owned by the SM/persistence collaborator: a fixed array
of physical slots, each holding an (address type, address) pair, plus the
advisory aggregate count returned by `le_device_db_count()`.  The count is
advisory (diagnostic, not authoritative): the spec does not tie it to the
slot contents, so it is an independent field. -/
structure DeviceDb where
  slots : List (Nat × Nat)
  advisoryCount : Nat
deriving DecidableEq, Repr

/-- le_device_db_info(i, &addr_type, addr, NULL): read of physical slot i.
Out-of-range reads yield the empty-slot sentinel. -/
def le_device_db_info (db : DeviceDb) (i : Nat) : Nat × Nat :=
  db.slots.getD i (BD_ADDR_TYPE_UNKNOWN, 0)

/-- Slot-occupancy predicate of the source: a slot holds a valid LE bond entry
iff its address type is LE public or LE random. -/
def slotOccupied (slot : Nat × Nat) : Bool :=
  slot.1 = BD_ADDR_TYPE_LE_PUBLIC || slot.1 = BD_ADDR_TYPE_LE_RANDOM

/-- Collaborator world consulted by removeBonding: the handle-to-DB-index
lookup `sm_le_device_index` (negative when the handle has no DB entry) and
the device DB itself. -/
structure SMWorld where
  leDeviceIndex : Nat → Int
  db : DeviceDb

/-- Authentication-requirement mask computed by the switch statement in
`BLESecureClass::setSecurityLevel` (BLESecure.cpp lines 80-104). -/
def authReqFor (level : BLESecurityLevel) (enableBonding : Bool) : Nat :=
  match level with
  | SECURITY_LOW => 0
  | SECURITY_MEDIUM => if enableBonding then SM_AUTHREQ_BONDING else 0
  | SECURITY_HIGH =>
      SM_AUTHREQ_MITM_PROTECTION ||| (if enableBonding then SM_AUTHREQ_BONDING else 0)
  | SECURITY_HIGH_SC =>
      SM_AUTHREQ_MITM_PROTECTION ||| SM_AUTHREQ_SECURE_CONNECTION |||
        (if enableBonding then SM_AUTHREQ_BONDING else 0)

/-- `BLESecureClass::setSecurityLevel(level, enableBonding)`: stores the level
and bonding flag, then pushes the computed mask to the SM engine. -/
def setSecurityLevel (s : BLESecureState) (level : BLESecurityLevel)
    (enableBonding : Bool) : BLESecureState × List SMCall :=
  ({ s with securityLevel := level, bondingEnabled := enableBonding },
   [SMCall.smSetAuthenticationRequirements (authReqFor level enableBonding)])

/-- `BLESecureClass::requestPairing(device)`: NULL device or invalid handle
fail with no state change; otherwise set STARTED, record the handle, fire the
status callback (if registered) before issuing sm_request_pairing, return
true. -/
def requestPairing (s : BLESecureState) (device : Option Nat) :
    BLESecureState × List SMCall × Bool :=
  match device with
  | none => (s, [], false)
  | some handle =>
    if handle = HCI_CON_HANDLE_INVALID then (s, [], false)
    else
      let s1 : BLESecureState :=
        { s with pairingStatus := PAIRING_STARTED, currentDeviceHandle := handle }
      let cb : List SMCall :=
        if s.pairingStatusCallbackSet then [SMCall.pairingStatusCb PAIRING_STARTED handle]
        else []
      (s1, cb ++ [SMCall.smRequestPairing handle], true)

/-- `BLESecureClass::bondWithDevice(device)`: NULL fails at once; otherwise
save the bonding flag, re-apply the security level with bonding on when it was
off, run requestPairing, then re-apply with bonding off when it was originally
off, and return requestPairing's result. -/
def bondWithDevice (s : BLESecureState) (device : Option Nat) :
    BLESecureState × List SMCall × Bool :=
  match device with
  | none => (s, [], false)
  | some _ =>
    let originalBondingState := s.bondingEnabled
    let step1 : BLESecureState × List SMCall :=
      if !s.bondingEnabled then setSecurityLevel s s.securityLevel true else (s, [])
    let step2 := requestPairing step1.1 device
    let step3 : BLESecureState × List SMCall :=
      if !originalBondingState then setSecurityLevel step2.1 step2.1.securityLevel false
      else (step2.1, [])
    (step3.1, step1.2 ++ step2.2.1 ++ step3.2, step2.2.2)

/-- `BLESecureClass::removeBonding(device)`: NULL device, invalid handle, a
negative sm_le_device_index result, or a slot whose address type is neither
LE public nor LE random all fail with nothing deleted; otherwise delete the
bond keyed by the slot's (type, address), disconnect the handle, return true.
The class state is never modified, so only the trace and result are
returned. -/
def removeBonding (w : SMWorld) (device : Option Nat) : List SMCall × Bool :=
  match device with
  | none => ([], false)
  | some handle =>
    if handle = HCI_CON_HANDLE_INVALID then ([], false)
    else
      let device_db_index := w.leDeviceIndex handle
      if device_db_index < 0 then ([], false)
      else
        let info := le_device_db_info w.db device_db_index.toNat
        if slotOccupied info then
          ([SMCall.leDeviceDbInfo device_db_index.toNat,
            SMCall.gapDeleteBonding info.1 info.2,
            SMCall.gapDisconnect handle], true)
        else
          ([SMCall.leDeviceDbInfo device_db_index.toNat], false)

/-- Body of one iteration of the slot loop in `clearAllBondings`: read slot i,
and when the slot holds a valid LE entry call gap_delete_bonding for its
(type, address) pair. -/
def scanSlot (db : DeviceDb) (i : Nat) : List SMCall :=
  let info := le_device_db_info db i
  SMCall.leDeviceDbInfo i ::
    (if slotOccupied info then [SMCall.gapDeleteBonding info.1 info.2] else [])

/-- `BLESecureClass::clearAllBondings()`: read the advisory count; when it is
positive, one linear pass over all NVM_NUM_DEVICE_DB_ENTRIES physical slots
deleting every valid LE entry found; when it is zero the loop is skipped
entirely.  The final le_device_db_count() re-read only feeds Serial prints and
is not part of the trace.  Class state is untouched. -/
def clearAllBondings (db : DeviceDb) : List SMCall :=
  if 0 < db.advisoryCount then
    (List.range NVM_NUM_DEVICE_DB_ENTRIES).flatMap (scanSlot db)
  else []

/-- `BLESecureClass::setEnteredPasskey(passkey)`: forwards the value to
sm_passkey_input on the current handle whenever pairing is STARTED and the
handle is valid; otherwise does nothing.  The source performs no range check
on the value. -/
def setEnteredPasskey (s : BLESecureState) (passkey : Nat) :
    BLESecureState × List SMCall :=
  if s.pairingStatus = PAIRING_STARTED ∧ s.currentDeviceHandle ≠ HCI_CON_HANDLE_INVALID then
    (s, [SMCall.smPasskeyInput s.currentDeviceHandle passkey])
  else (s, [])

/-- `BLESecureClass::acceptNumericComparison(accept)`: whenever pairing is
STARTED and the handle is valid, calls sm_numeric_comparison_confirm on the
current handle.  The accept parameter is ignored by the source (the
implementation always confirms). -/
def acceptNumericComparison (s : BLESecureState) (accept : Bool) :
    BLESecureState × List SMCall :=
  if s.pairingStatus = PAIRING_STARTED ∧ s.currentDeviceHandle ≠ HCI_CON_HANDLE_INVALID then
    (s, [SMCall.smNumericComparisonConfirm s.currentDeviceHandle])
  else (s, [])

/-- `BLESecureClass::internalDisconnectionCallback(device)`: when the
disconnecting device's handle equals the active pairing handle, reset status
to IDLE and clear the handle; in every case then forward to the user's
disconnected callback when registered.  The emitted callback element carries
the pairing status the application would observe inside its handler. -/
def internalDisconnectionCallback (s : BLESecureState) (deviceHandle : Nat) :
    BLESecureState × List SMCall :=
  let s1 : BLESecureState :=
    if s.currentDeviceHandle = deviceHandle then
      { s with pairingStatus := PAIRING_IDLE,
               currentDeviceHandle := HCI_CON_HANDLE_INVALID }
    else s
  (s1, if s.userDisconnectedCallbackSet then [SMCall.userDisconnectedCb s1.pairingStatus]
       else [])

/-- Security-manager events delivered to `BLESecureClass::handleSMEvent`,
abstracted from HCI packets by the per-event accessor functions the handler
uses. -/
inductive SMEvent where
  | justWorksRequest (handle : Nat)
  | passkeyDisplayNumber (handle : Nat) (passkey : Nat)
  | passkeyInputNumber
  | numericComparisonRequest (handle : Nat) (passkey : Nat)
  | pairingStarted (handle : Nat)
  | pairingComplete (handle : Nat) (status : Nat) (reason : Nat)
  | reencryptionStarted (handle : Nat)
  | reencryptionComplete (handle : Nat) (status : Nat)
deriving DecidableEq, Repr

/-- `BLESecureClass::handleSMEvent` dispatch (BLESecure.cpp lines 421-579),
one case per SM event type the handler recognises. -/
def handleSMEvent (s : BLESecureState) (ev : SMEvent) : BLESecureState × List SMCall :=
  match ev with
  | SMEvent.justWorksRequest handle =>
      (s, [SMCall.smJustWorksConfirm handle])
  | SMEvent.passkeyDisplayNumber _ passkey =>
      (s, if s.passkeyDisplayCallbackSet then [SMCall.passkeyDisplayCb passkey] else [])
  | SMEvent.passkeyInputNumber =>
      (s, if s.passkeyEntryCallbackSet then [SMCall.passkeyEntryCb] else [])
  | SMEvent.numericComparisonRequest handle passkey =>
      (s, if s.numericComparisonCallbackSet then [SMCall.numericComparisonCb passkey handle]
          else [SMCall.smNumericComparisonConfirm handle])
  | SMEvent.pairingStarted handle =>
      ({ s with pairingStatus := PAIRING_STARTED, currentDeviceHandle := handle },
       if s.pairingStatusCallbackSet then [SMCall.pairingStatusCb PAIRING_STARTED handle]
       else [])
  | SMEvent.pairingComplete handle status _ =>
      let st := if status = ERROR_CODE_SUCCESS then PAIRING_COMPLETE else PAIRING_FAILED
      ({ s with pairingStatus := st, currentDeviceHandle := HCI_CON_HANDLE_INVALID },
       if s.pairingStatusCallbackSet then [SMCall.pairingStatusCb st handle] else [])
  | SMEvent.reencryptionStarted handle =>
      ({ s with pairingStatus := PAIRING_STARTED, currentDeviceHandle := handle },
       if s.pairingStatusCallbackSet then [SMCall.pairingStatusCb PAIRING_STARTED handle]
       else [])
  | SMEvent.reencryptionComplete handle status =>
      let st := if status = ERROR_CODE_SUCCESS then PAIRING_COMPLETE else PAIRING_FAILED
      ({ s with pairingStatus := st, currentDeviceHandle := HCI_CON_HANDLE_INVALID },
       if s.pairingStatusCallbackSet then [SMCall.pairingStatusCb st handle] else [])

/-- Trace filter: delete-bonding calls. -/
def isDelete : SMCall → Bool
  | SMCall.gapDeleteBonding _ _ => true
  | _ => false

/-- Trace filter: physical-slot reads. -/
def isSlotRead : SMCall → Bool
  | SMCall.leDeviceDbInfo _ => true
  | _ => false

/-- Initial state produced by the `BLESecureClass` constructor: IDLE status,
MEDIUM level, bonding enabled, invalid handle, no callbacks registered. -/
def initialState : BLESecureState :=
  { pairingStatus := PAIRING_IDLE, securityLevel := SECURITY_MEDIUM,
    bondingEnabled := true, currentDeviceHandle := HCI_CON_HANDLE_INVALID,
    passkeyDisplayCallbackSet := false, passkeyEntryCallbackSet := false,
    pairingStatusCallbackSet := false, numericComparisonCallbackSet := false,
    userDisconnectedCallbackSet := false }

/-- State in the middle of a pairing session on handle 1. -/
def sStarted : BLESecureState :=
  { initialState with pairingStatus := PAIRING_STARTED, currentDeviceHandle := 1 }

/-- State in the middle of a pairing session on handle 1 with the
pairing-status callback registered. -/
def sCbStarted : BLESecureState :=
  { sStarted with pairingStatusCallbackSet := true }

/-- Claim C7: for every security level and every bonding flag,
setSecurityLevel stores the level and flag and pushes to the SM engine
exactly the bitmask of the spec table: LOW ↦ none; MEDIUM ↦ BONDING iff
bonding; HIGH ↦ MITM plus BONDING iff bonding; HIGH_SC ↦ MITM plus
SECURE_CONNECTIONS plus BONDING iff bonding — eight deterministic cases,
no error path. -/
theorem setSecurityLevel_mask_table (s : BLESecureState) (level : BLESecurityLevel)
    (bonding : Bool) :
    setSecurityLevel s level bonding
      = ({ s with securityLevel := level, bondingEnabled := bonding },
         [SMCall.smSetAuthenticationRequirements
            (match level with
             | SECURITY_LOW => 0
             | SECURITY_MEDIUM => if bonding then SM_AUTHREQ_BONDING else 0
             | SECURITY_HIGH =>
                 SM_AUTHREQ_MITM_PROTECTION + (if bonding then SM_AUTHREQ_BONDING else 0)
             | SECURITY_HIGH_SC =>
                 SM_AUTHREQ_MITM_PROTECTION + SM_AUTHREQ_SECURE_CONNECTION +
                   (if bonding then SM_AUTHREQ_BONDING else 0))]) := by
  cases level <;> cases bonding <;> rfl

/-- Claim C2: while pairing status is STARTED and an active handle is set,
acceptNumericComparison confirms on the active handle unconditionally: the
outcome for accept = true and accept = false is identical, and both issue
exactly the SM confirm-numeric-comparison call with no state change. -/
theorem acceptNumericComparison_ignores_accept (s : BLESecureState)
    (h1 : s.pairingStatus = PAIRING_STARTED)
    (h2 : s.currentDeviceHandle ≠ HCI_CON_HANDLE_INVALID) :
    acceptNumericComparison s true = acceptNumericComparison s false ∧
    ∀ accept : Bool, acceptNumericComparison s accept
        = (s, [SMCall.smNumericComparisonConfirm s.currentDeviceHandle]) := by
  refine ⟨?_, fun accept => ?_⟩ <;> simp [acceptNumericComparison, h1, h2]

/-- Witness for claim C2 at a concrete STARTED state on handle 1. -/
theorem acceptNumericComparison_ignores_accept_witness :
    acceptNumericComparison sStarted true = acceptNumericComparison sStarted false ∧
    acceptNumericComparison sStarted true
      = (sStarted, [SMCall.smNumericComparisonConfirm 1]) := by
  have h := acceptNumericComparison_ignores_accept sStarted (by decide) (by decide)
  exact ⟨h.1, h.2 true⟩

/-- Claim C5 as amended: setEnteredPasskey forwards the value — any value,
the source performs no range check — to the SM passkey-input primitive on the
current handle whenever status is STARTED and an active handle is set, and is
a no-op with no state change and no SM call when status is not STARTED or no
handle is set. -/
theorem setEnteredPasskey_spec (s : BLESecureState) (passkey : Nat) :
    (s.pairingStatus = PAIRING_STARTED →
      s.currentDeviceHandle ≠ HCI_CON_HANDLE_INVALID →
      setEnteredPasskey s passkey
        = (s, [SMCall.smPasskeyInput s.currentDeviceHandle passkey])) ∧
    (s.pairingStatus ≠ PAIRING_STARTED → setEnteredPasskey s passkey = (s, [])) ∧
    (s.currentDeviceHandle = HCI_CON_HANDLE_INVALID →
      setEnteredPasskey s passkey = (s, [])) := by
  refine ⟨fun h1 h2 => ?_, fun h1 => ?_, fun h2 => ?_⟩
  · simp [setEnteredPasskey, h1, h2]
  · simp [setEnteredPasskey, h1]
  · simp [setEnteredPasskey, h2]

/-- Witness for claim C5's amended theorem: forwarding while STARTED on
handle 1, no-op while IDLE, no-op with no active handle. -/
theorem setEnteredPasskey_spec_witness :
    setEnteredPasskey sStarted 123456 = (sStarted, [SMCall.smPasskeyInput 1 123456]) ∧
    setEnteredPasskey initialState 123456 = (initialState, []) ∧
    setEnteredPasskey { sStarted with currentDeviceHandle := HCI_CON_HANDLE_INVALID } 123456
      = ({ sStarted with currentDeviceHandle := HCI_CON_HANDLE_INVALID }, []) := by
  refine ⟨(setEnteredPasskey_spec sStarted 123456).1 (by decide) (by decide),
          (setEnteredPasskey_spec initialState 123456).2.1 (by decide),
          (setEnteredPasskey_spec _ 123456).2.2 (by decide)⟩

/-- Counterexample for claim C5 as stated: a passkey of 1000000 (greater
than 999999) is not ignored — while STARTED on handle 1 it is forwarded to
the SM passkey-input primitive. -/
theorem setEnteredPasskey_range_counterexample :
    1000000 > 999999 ∧
    setEnteredPasskey sStarted 1000000 = (sStarted, [SMCall.smPasskeyInput 1 1000000]) := by
  decide

/-- Claim C10: on an SM NumericComparisonRequest event, when no
numeric-comparison callback is registered the handler itself confirms the
comparison on the event's handle (silent auto-accept); when a callback is
registered the handler invokes only that callback and issues no confirm
call.  State is unchanged either way. -/
theorem numericComparisonRequest_dispatch (s : BLESecureState) (handle passkey : Nat) :
    (s.numericComparisonCallbackSet = false →
      handleSMEvent s (SMEvent.numericComparisonRequest handle passkey)
        = (s, [SMCall.smNumericComparisonConfirm handle])) ∧
    (s.numericComparisonCallbackSet = true →
      handleSMEvent s (SMEvent.numericComparisonRequest handle passkey)
        = (s, [SMCall.numericComparisonCb passkey handle])) := by
  refine ⟨fun h => ?_, fun h => ?_⟩ <;> simp [handleSMEvent, h]

/-- Witness for claim C10: auto-accept with no callback registered, pure
dispatch with one registered. -/
theorem numericComparisonRequest_dispatch_witness :
    handleSMEvent sStarted (SMEvent.numericComparisonRequest 1 77777)
      = (sStarted, [SMCall.smNumericComparisonConfirm 1]) ∧
    handleSMEvent { sStarted with numericComparisonCallbackSet := true }
        (SMEvent.numericComparisonRequest 1 77777)
      = ({ sStarted with numericComparisonCallbackSet := true },
         [SMCall.numericComparisonCb 77777 1]) := by
  exact ⟨(numericComparisonRequest_dispatch sStarted 1 77777).1 (by decide),
         (numericComparisonRequest_dispatch _ 1 77777).2 (by decide)⟩

/-- State like sStarted but with the pairing-status callback registered and
pairing idle, for exercising requestPairing success. -/
def sCbIdle : BLESecureState := { initialState with pairingStatusCallbackSet := true }

/-- Claim C4: requestPairing with a NULL device or an invalid handle returns
false and leaves pairing status, active handle — the whole state — unchanged
with no calls issued; with a valid handle it sets STARTED, records the handle,
fires the registered status callback with STARTED before issuing the SM
request-pairing primitive, and returns true. -/
theorem requestPairing_spec (s : BLESecureState) (device : Option Nat) :
    (device = none → requestPairing s device = (s, [], false)) ∧
    (device = some HCI_CON_HANDLE_INVALID → requestPairing s device = (s, [], false)) ∧
    (∀ handle, device = some handle → handle ≠ HCI_CON_HANDLE_INVALID →
      requestPairing s device
        = ({ s with pairingStatus := PAIRING_STARTED, currentDeviceHandle := handle },
           (if s.pairingStatusCallbackSet
            then [SMCall.pairingStatusCb PAIRING_STARTED handle] else [])
             ++ [SMCall.smRequestPairing handle],
           true)) := by
  refine ⟨fun h => ?_, fun h => ?_, fun handle h hne => ?_⟩
  · subst h; rfl
  · subst h; simp [requestPairing]
  · subst h; simp [requestPairing, hne]

/-- Witness for claim C4: NULL device, invalid handle, and a successful
request on handle 1 with the status callback registered. -/
theorem requestPairing_spec_witness :
    requestPairing sCbIdle none = (sCbIdle, [], false) ∧
    requestPairing sCbIdle (some HCI_CON_HANDLE_INVALID) = (sCbIdle, [], false) ∧
    requestPairing sCbIdle (some 1)
      = ({ sCbIdle with pairingStatus := PAIRING_STARTED, currentDeviceHandle := 1 },
         [SMCall.pairingStatusCb PAIRING_STARTED 1, SMCall.smRequestPairing 1], true) := by
  refine ⟨(requestPairing_spec sCbIdle none).1 rfl,
          (requestPairing_spec sCbIdle _).2.1 rfl, ?_⟩
  have h := (requestPairing_spec sCbIdle (some 1)).2.2 1 rfl (by decide)
  simpa using h

/-- Claim C8: for every device argument and every starting state,
bondWithDevice returns the same boolean as requestPairing run with the
bonding flag enabled, and the stored bonding-enabled flag after the call
equals its value before the call. -/
theorem bondWithDevice_refines_requestPairing (s : BLESecureState) (device : Option Nat) :
    (bondWithDevice s device).2.2
      = (requestPairing { s with bondingEnabled := true } device).2.2 ∧
    (bondWithDevice s device).1.bondingEnabled = s.bondingEnabled := by
  cases device with
  | none => exact ⟨rfl, rfl⟩
  | some handle =>
    by_cases hb : s.bondingEnabled <;> by_cases hh : handle = HCI_CON_HANDLE_INVALID <;>
      simp [bondWithDevice, requestPairing, setSecurityLevel, hb, hh]

/-- Claim C9: a disconnect of the handle equal to the active pairing handle
resets status to IDLE and clears the handle before the user disconnected
callback runs, so a registered callback observes IDLE; a disconnect of a
different handle leaves the state unchanged and the callback observes the
unchanged status. -/
theorem internalDisconnectionCallback_spec (s : BLESecureState) (deviceHandle : Nat) :
    (s.currentDeviceHandle = deviceHandle →
      internalDisconnectionCallback s deviceHandle
        = ({ s with pairingStatus := PAIRING_IDLE,
                    currentDeviceHandle := HCI_CON_HANDLE_INVALID },
           if s.userDisconnectedCallbackSet
           then [SMCall.userDisconnectedCb PAIRING_IDLE] else [])) ∧
    (s.currentDeviceHandle ≠ deviceHandle →
      internalDisconnectionCallback s deviceHandle
        = (s, if s.userDisconnectedCallbackSet
              then [SMCall.userDisconnectedCb s.pairingStatus] else [])) := by
  refine ⟨fun h => ?_, fun h => ?_⟩
  · simp [internalDisconnectionCallback, h]
  · simp [internalDisconnectionCallback, h]

/-- Witness for claim C9: disconnecting the active handle 1 of a STARTED
session with the disconnected callback registered delivers IDLE to the
callback; disconnecting handle 2 changes nothing and delivers STARTED. -/
theorem internalDisconnectionCallback_spec_witness :
    internalDisconnectionCallback { sStarted with userDisconnectedCallbackSet := true } 1
      = ({ sStarted with userDisconnectedCallbackSet := true,
                         pairingStatus := PAIRING_IDLE,
                         currentDeviceHandle := HCI_CON_HANDLE_INVALID },
         [SMCall.userDisconnectedCb PAIRING_IDLE]) ∧
    internalDisconnectionCallback { sStarted with userDisconnectedCallbackSet := true } 2
      = ({ sStarted with userDisconnectedCallbackSet := true },
         [SMCall.userDisconnectedCb PAIRING_STARTED]) := by
  constructor
  · have h := (internalDisconnectionCallback_spec
      { sStarted with userDisconnectedCallbackSet := true } 1).1 (by decide)
    simpa using h
  · have h := (internalDisconnectionCallback_spec
      { sStarted with userDisconnectedCallbackSet := true } 2).2 (by decide)
    simpa using h

/-- Counterexample for claim C3 as stated: from a STARTED session on handle 1
with the status callback registered, a success PairingComplete event fires the
COMPLETE callback, and a duplicate success completion for the same handle,
with no intervening STARTED, fires a second COMPLETE status callback. -/
theorem pairingComplete_duplicate_counterexample :
    (handleSMEvent sCbStarted (SMEvent.pairingComplete 1 ERROR_CODE_SUCCESS 0)).2
      = [SMCall.pairingStatusCb PAIRING_COMPLETE 1] ∧
    (handleSMEvent
        (handleSMEvent sCbStarted (SMEvent.pairingComplete 1 ERROR_CODE_SUCCESS 0)).1
        (SMEvent.pairingComplete 1 ERROR_CODE_SUCCESS 0)).2
      = [SMCall.pairingStatusCb PAIRING_COMPLETE 1] := by
  decide

/-- Claim C3 as amended: a success PairingComplete event sets status to
COMPLETE, fires the registered status callback with COMPLETE, and clears the
active handle; the handler performs no duplicate suppression, so a duplicate
success completion for the same handle without an intervening STARTED fires
the COMPLETE status callback again. -/
theorem pairingComplete_success_spec (s : BLESecureState) (handle reason : Nat)
    (hcb : s.pairingStatusCallbackSet = true) :
    handleSMEvent s (SMEvent.pairingComplete handle ERROR_CODE_SUCCESS reason)
      = ({ s with pairingStatus := PAIRING_COMPLETE,
                  currentDeviceHandle := HCI_CON_HANDLE_INVALID },
         [SMCall.pairingStatusCb PAIRING_COMPLETE handle]) ∧
    (handleSMEvent
        (handleSMEvent s (SMEvent.pairingComplete handle ERROR_CODE_SUCCESS reason)).1
        (SMEvent.pairingComplete handle ERROR_CODE_SUCCESS reason)).2
      = [SMCall.pairingStatusCb PAIRING_COMPLETE handle] := by
  constructor
  · simp [handleSMEvent, hcb]
  · simp [handleSMEvent, hcb]

/-- Witness for claim C3's amended theorem at the concrete STARTED state with
the callback registered, on handle 1. -/
theorem pairingComplete_success_spec_witness :
    handleSMEvent sCbStarted (SMEvent.pairingComplete 1 ERROR_CODE_SUCCESS 0)
      = ({ sCbStarted with pairingStatus := PAIRING_COMPLETE,
                           currentDeviceHandle := HCI_CON_HANDLE_INVALID },
         [SMCall.pairingStatusCb PAIRING_COMPLETE 1]) := by
  exact (pairingComplete_success_spec sCbStarted 1 0 (by decide)).1

/-- Concrete collaborator world for removeBonding: handle 1 resolves to DB
slot 0 which holds an LE-public bond for address 42; handle 2 resolves to
slot 1 which holds address type 7 (neither LE public nor LE random); every
other handle has no DB entry. -/
def wEx : SMWorld :=
  { leDeviceIndex := fun h => if h = 1 then 0 else if h = 2 then 1 else -1,
    db := { slots := [(0, 42), (7, 5)], advisoryCount := 2 } }

/-- Claim C6: removeBonding returns false and deletes nothing when the device
is NULL, the handle is invalid, or the handle-to-index lookup is negative
(not bonded); it returns false without deleting when the resolved slot's
address type is neither LE public nor LE random; otherwise it deletes the
bond keyed by the slot's (type, address), then disconnects the handle, and
returns true. -/
theorem removeBonding_spec (w : SMWorld) (device : Option Nat) :
    (device = none → removeBonding w device = ([], false)) ∧
    (device = some HCI_CON_HANDLE_INVALID → removeBonding w device = ([], false)) ∧
    (∀ handle, device = some handle → handle ≠ HCI_CON_HANDLE_INVALID →
      (w.leDeviceIndex handle < 0 → removeBonding w device = ([], false)) ∧
      (0 ≤ w.leDeviceIndex handle →
        (slotOccupied (le_device_db_info w.db (w.leDeviceIndex handle).toNat) = false →
          removeBonding w device
            = ([SMCall.leDeviceDbInfo (w.leDeviceIndex handle).toNat], false)) ∧
        (slotOccupied (le_device_db_info w.db (w.leDeviceIndex handle).toNat) = true →
          removeBonding w device
            = ([SMCall.leDeviceDbInfo (w.leDeviceIndex handle).toNat,
                SMCall.gapDeleteBonding
                  (le_device_db_info w.db (w.leDeviceIndex handle).toNat).1
                  (le_device_db_info w.db (w.leDeviceIndex handle).toNat).2,
                SMCall.gapDisconnect handle], true)))) := by
  refine ⟨fun h => ?_, fun h => ?_, fun handle h hne => ?_⟩
  · subst h; rfl
  · subst h; simp [removeBonding]
  · subst h
    refine ⟨fun hneg => ?_, fun hpos => ⟨fun hocc => ?_, fun hocc => ?_⟩⟩
    · simp [removeBonding, hne, hneg]
    · simp [removeBonding, hne, Int.not_lt.mpr hpos, hocc]
    · simp [removeBonding, hne, Int.not_lt.mpr hpos, hocc]

/-- Witness for claim C6 in the world wEx: NULL device, invalid handle,
unbonded handle 3, wrong-address-type handle 2, and a successful removal on
handle 1 that deletes (LE public, 42) then disconnects. -/
theorem removeBonding_spec_witness :
    removeBonding wEx none = ([], false) ∧
    removeBonding wEx (some HCI_CON_HANDLE_INVALID) = ([], false) ∧
    removeBonding wEx (some 3) = ([], false) ∧
    removeBonding wEx (some 2) = ([SMCall.leDeviceDbInfo 1], false) ∧
    removeBonding wEx (some 1)
      = ([SMCall.leDeviceDbInfo 0, SMCall.gapDeleteBonding 0 42,
          SMCall.gapDisconnect 1], true) := by
  refine ⟨(removeBonding_spec wEx none).1 rfl,
          (removeBonding_spec wEx _).2.1 rfl, ?_, ?_, ?_⟩
  · exact ((removeBonding_spec wEx (some 3)).2.2 3 rfl (by decide)).1 (by decide)
  · have h := (((removeBonding_spec wEx (some 2)).2.2 2 rfl (by decide)).2
      (by decide)).1 (by decide)
    simpa using h
  · have h := (((removeBonding_spec wEx (some 1)).2.2 1 rfl (by decide)).2
      (by decide)).2 (by decide)
    simpa using h

/-- One scan-loop iteration contributes exactly one slot read to the trace. -/
theorem scanSlot_filter_isSlotRead (db : DeviceDb) (i : Nat) :
    (scanSlot db i).filter isSlotRead = [SMCall.leDeviceDbInfo i] := by
  by_cases h : slotOccupied (le_device_db_info db i) <;>
    simp [scanSlot, isSlotRead, isDelete, h]

/-- One scan-loop iteration contributes a delete call exactly when the slot it
reads is occupied, keyed by that slot's pair. -/
theorem scanSlot_filter_isDelete (db : DeviceDb) (i : Nat) :
    (scanSlot db i).filter isDelete
      = ((db.slots[i]?.toList).filter slotOccupied).map
          (fun p => SMCall.gapDeleteBonding p.1 p.2) := by
  cases h : db.slots[i]? with
  | none =>
      have hinfo : le_device_db_info db i = (BD_ADDR_TYPE_UNKNOWN, 0) := by
        simp [le_device_db_info, List.getD_eq_getElem?_getD, h]
      simp [scanSlot, hinfo, isSlotRead, isDelete, slotOccupied,
            BD_ADDR_TYPE_UNKNOWN, BD_ADDR_TYPE_LE_PUBLIC, BD_ADDR_TYPE_LE_RANDOM, h]
  | some p =>
      have hinfo : le_device_db_info db i = p := by
        simp [le_device_db_info, List.getD_eq_getElem?_getD, h]
      by_cases hocc : slotOccupied p <;>
        simp [scanSlot, hinfo, isSlotRead, isDelete, hocc, h]

/-- The scan of the first n slots reads each of them once, in index order. -/
theorem range_scan_reads (db : DeviceDb) (n : Nat) :
    (((List.range n).flatMap (scanSlot db)).filter isSlotRead)
      = (List.range n).map SMCall.leDeviceDbInfo := by
  induction n with
  | zero => simp
  | succ n ih =>
      rw [List.range_succ]
      simp [List.flatMap_append, List.filter_append, ih, scanSlot_filter_isSlotRead]

/-- The delete calls issued by the scan of the first n slots are exactly one
per occupied slot among them, keyed by that slot's pair, in slot order. -/
theorem range_scan_deletes (db : DeviceDb) (n : Nat) :
    (((List.range n).flatMap (scanSlot db)).filter isDelete)
      = ((db.slots.take n).filter slotOccupied).map
          (fun p => SMCall.gapDeleteBonding p.1 p.2) := by
  induction n with
  | zero => simp
  | succ n ih =>
      rw [List.range_succ, List.take_succ]
      simp [List.flatMap_append, List.filter_append, ih, scanSlot_filter_isDelete]

/-- Claim C1 as amended: when the advisory count read beforehand is positive,
clearAllBondings performs exactly one linear pass over all N = 16 physical
slots (each slot read exactly once, in order) and issues exactly K
delete-bonding calls, one per occupied slot with that slot's (address type,
address) pair, where a slot is occupied iff its address type is LE_PUBLIC or
LE_RANDOM; but when the advisory count is zero the scan is skipped entirely —
no slot is read and no delete is issued — so the advisory count does gate
whether the pass happens at all. -/
theorem clearAllBondings_spec (db : DeviceDb)
    (hlen : db.slots.length = NVM_NUM_DEVICE_DB_ENTRIES) :
    (0 < db.advisoryCount →
      ((clearAllBondings db).filter isSlotRead
          = (List.range NVM_NUM_DEVICE_DB_ENTRIES).map SMCall.leDeviceDbInfo) ∧
      ((clearAllBondings db).filter isDelete
          = (db.slots.filter slotOccupied).map
              (fun p => SMCall.gapDeleteBonding p.1 p.2)) ∧
      ((clearAllBondings db).filter isDelete).length
          = (db.slots.filter slotOccupied).length) ∧
    (db.advisoryCount = 0 → clearAllBondings db = []) := by
  constructor
  · intro hc
    have hdel : (clearAllBondings db).filter isDelete
        = (db.slots.filter slotOccupied).map
            (fun p => SMCall.gapDeleteBonding p.1 p.2) := by
      unfold clearAllBondings
      rw [if_pos hc, range_scan_deletes db _, ← hlen, List.take_length]
    refine ⟨?_, hdel, ?_⟩
    · unfold clearAllBondings
      rw [if_pos hc]
      exact range_scan_reads db _
    · rw [hdel]
      simp
  · intro hc
    unfold clearAllBondings
    rw [if_neg (by omega)]

/-- Example database with a lagging advisory count: slot 0 holds an LE-public
bond but le_device_db_count() reports 0. -/
def dbLag : DeviceDb :=
  { slots := (0, 42) :: List.replicate 15 (BD_ADDR_TYPE_UNKNOWN, 0),
    advisoryCount := 0 }

/-- Counterexample for claim C1 as stated: a database of 16 slots with K = 1
occupied slot whose advisory count reads 0 — the advisory count is not
diagnostic-only: clearAllBondings performs no pass at all (no slot read) and
issues 0 delete calls instead of K = 1. -/
theorem clearAllBondings_counterexample :
    dbLag.slots.length = NVM_NUM_DEVICE_DB_ENTRIES ∧
    (dbLag.slots.filter slotOccupied).length = 1 ∧
    clearAllBondings dbLag = [] := by
  decide

/-- Example database with two occupied slots and a positive advisory count. -/
def dbEx : DeviceDb :=
  { slots := (0, 42) :: (1, 7) :: List.replicate 14 (BD_ADDR_TYPE_UNKNOWN, 0),
    advisoryCount := 2 }

/-- Example empty database whose advisory count is 0. -/
def dbZero : DeviceDb :=
  { slots := List.replicate 16 (BD_ADDR_TYPE_UNKNOWN, 0), advisoryCount := 0 }

/-- Witness for claim C1's amended theorem: on dbEx (two occupied slots,
positive count) the scan reads all 16 slots and deletes exactly the two
occupied pairs in order; on dbZero (count 0) nothing happens. -/
theorem clearAllBondings_spec_witness :
    (clearAllBondings dbEx).filter isDelete
      = [SMCall.gapDeleteBonding 0 42, SMCall.gapDeleteBonding 1 7] ∧
    ((clearAllBondings dbEx).filter isSlotRead).length = NVM_NUM_DEVICE_DB_ENTRIES ∧
    clearAllBondings dbZero = [] := by
  have h1 := (clearAllBondings_spec dbEx (by decide)).1 (by decide)
  have h2 := (clearAllBondings_spec dbZero (by decide)).2 (by decide)
  refine ⟨?_, ?_, h2⟩
  · rw [h1.2.1]
    decide
  · rw [h1.1]
    decide
